import Mathlib

/-!
Shallow embedding of the X Spam Sweeper text-classification core
(`spam-patterns` module: URL pattern tables, keyword weights, dynamic
regex rules, `checkUrlPatterns`, `calculateSpamScore`, `getSpamInfo`,
`getSpamInfoWithAI`), together with theorems checking the stated
properties of the specification against this embedding.

Texts are modelled as `Option String` (JavaScript `null` is `none`);
all string scanning is done over `List Char`.
-/

set_option maxRecDepth 1000000

namespace XSpam

/-- JavaScript word character for the `\b` regex assertion: `[A-Za-z0-9_]`. -/
def isWordChar (c : Char) : Bool :=
  ('a' ≤ c && c ≤ 'z') || ('A' ≤ c && c ≤ 'Z') || ('0' ≤ c && c ≤ '9') || c == '_'

/-- Wordness of an optional character; `none` (outside the string) is non-word. -/
def wordOpt : Option Char → Bool
  | none => false
  | some c => isWordChar c

/-- A `\b` word boundary holds between two (optional) characters iff their
wordness differs. -/
def boundaryB (a b : Option Char) : Bool := wordOpt a != wordOpt b

/-- JavaScript `\s` whitespace class (ASCII part plus NBSP, which is what the
classifier texts can contain). -/
def jsSpace (c : Char) : Bool :=
  c == ' ' || c == '\t' || c == '\n' || c == '\r' || c == '\x0b' || c == '\x0c' ||
  c == '\xa0'

/-- Case-insensitive equality of characters, as used by the `i` regex flag on
the ASCII texts handled here. -/
def ciEq (a b : Char) : Bool := a.toLower == b.toLower

/-- Case-insensitively, does `pat` start the list `s`? -/
def startsWithCI : List Char → List Char → Bool
  | [], _ => true
  | _ :: _, [] => false
  | p :: ps, c :: cs => ciEq p c && startsWithCI ps cs

/-- Case-insensitive substring containment, the meaning of `.test` for an
unanchored case-insensitive literal regex. -/
def containsCI : List Char → List Char → Bool
  | [], pat => startsWithCI pat []
  | c :: cs, pat => startsWithCI pat (c :: cs) || containsCI cs pat

/-- Case-sensitive list-starts-with, for JavaScript `String.includes`. -/
def startsWithCS : List Char → List Char → Bool
  | [], _ => true
  | _ :: _, [] => false
  | p :: ps, c :: cs => p == c && startsWithCS ps cs

/-- Case-sensitive substring containment: JavaScript `String.includes`. -/
def containsCS : List Char → List Char → Bool
  | [], pat => startsWithCS pat []
  | c :: cs, pat => startsWithCS pat (c :: cs) || containsCS cs pat

/-- Lower-case a character list: JavaScript `String.toLowerCase` on the ASCII
texts handled here. -/
def lowerList (s : List Char) : List Char := s.map Char.toLower

/-- JavaScript `String.trim`: strip leading and trailing whitespace. -/
def jsTrim (s : List Char) : List Char :=
  ((s.dropWhile jsSpace).reverse.dropWhile jsSpace).reverse

/-!
A small backtracking regular-expression engine, sufficient for the shapes
occurring in `SPAM_REGEX_PATTERNS`: character classes, sequencing,
alternation (left-preferred), greedy option, greedy Kleene star over a
character class, and the `\b` word-boundary assertion.  Matching order is the
ECMAScript backtracking order, so the match found at a position is the one a
JavaScript regex would find.
-/

/-- Regular expressions as used by the dynamic spam rules. -/
inductive RE where
  | eps : RE
  | cls (p : Char → Bool) : RE
  | seqs (a b : RE) : RE
  | alts (a b : RE) : RE
  | opt (a : RE) : RE
  | star (p : Char → Bool) : RE
  | wb : RE

/-- Greedy Kleene star over a character class, in continuation style: try the
longest run first, backtracking one character at a time. -/
def starK (p : Char → Bool) (prev : Option Char) (s : List Char)
    (k : Option Char → List Char → Option (Option Char × List Char)) :
    Option (Option Char × List Char) :=
  match s with
  | [] => k prev []
  | c :: cs =>
    if p c then
      match starK p (some c) cs k with
      | some r => some r
      | none => k prev (c :: cs)
    else k prev (c :: cs)

/-- Backtracking matcher.  `reMat re prev s k` tries to match `re` at the head
of `s` (with `prev` the character just before `s`, for `\b`), calling the
continuation `k` with the state after the match; the first success in
ECMAScript preference order is returned. -/
def reMat : RE → Option Char → List Char →
    (Option Char → List Char → Option (Option Char × List Char)) →
    Option (Option Char × List Char)
  | .eps, prev, s, k => k prev s
  | .cls p, _, s, k =>
    match s with
    | [] => none
    | c :: cs => if p c then k (some c) cs else none
  | .seqs a b, prev, s, k => reMat a prev s (fun p2 s2 => reMat b p2 s2 k)
  | .alts a b, prev, s, k =>
    match reMat a prev s k with
    | some r => some r
    | none => reMat b prev s k
  | .opt a, prev, s, k =>
    match reMat a prev s k with
    | some r => some r
    | none => k prev s
  | .star p, prev, s, k => starK p prev s k
  | .wb, prev, s, k => if boundaryB prev s.head? then k prev s else none

/-- Attempt a match of `re` exactly at the start of `s`; on success return the
final previous-character and the unconsumed remainder. -/
def reMatchAt (re : RE) (prev : Option Char) (s : List Char) :
    Option (Option Char × List Char) :=
  reMat re prev s (fun p r => some (p, r))

/-- All matches of `re` in `s` scanning left to right, non-overlapping, each
match being the consumed characters; this is `String.prototype.match` with the
`g` flag (a zero-length match advances the scan by one character). -/
def reFindAux (re : RE) : Nat → Option Char → List Char → List (List Char)
  | 0, _, _ => []
  | _ + 1, prev, [] =>
    match reMatchAt re prev [] with
    | some _ => [[]]
    | none => []
  | fuel + 1, prev, c :: cs =>
    match reMatchAt re prev (c :: cs) with
    | some (p2, rem) =>
      let len := (c :: cs).length - rem.length
      if len == 0 then
        [] :: reFindAux re fuel (some c) cs
      else
        ((c :: cs).take len) :: reFindAux re fuel p2 rem
    | none => reFindAux re fuel (some c) cs

/-- The list of matches of `re` in `s` (ECMAScript global match). -/
def reMatches (re : RE) (s : List Char) : List (List Char) :=
  reFindAux re (s.length + 1) none s

/-- Character class matching a single character case-insensitively. -/
def ciChar (c : Char) : RE := .cls (ciEq c)

/-- Case-insensitive literal, as a sequence of character classes. -/
def ciLit (s : String) : RE := s.data.foldr (fun c r => .seqs (ciChar c) r) .eps

/-- The `\d` class. -/
def reDigitC (c : Char) : Bool := '0' ≤ c && c ≤ '9'

/-- One or more characters of a class, greedy (`p+`). -/
def many1 (p : Char → Bool) : RE := .seqs (.cls p) (.star p)

/-- `\s*`. -/
def ws0 : RE := .star jsSpace

/-- `\s+`. -/
def ws1 : RE := many1 jsSpace

/-- `\d+`. -/
def reDigits : RE := many1 reDigitC

/-!
The twelve dynamic rules of `SPAM_REGEX_PATTERNS`, transcribed regex by
regex from the source (all carry the `gi` flags).
-/

/-- Source regex `/\b\d+x\b/gi` (crypto multiplier claims). -/
def reMultiplier : RE := .seqs .wb (.seqs reDigits (.seqs (ciChar 'x') .wb))

/-- Helper for `\d+(?:\.\d+)?%` inside the percentage-returns rule. -/
def rePercentAmount : RE :=
  .seqs reDigits (.seqs (.opt (.seqs (ciChar '.') reDigits)) (ciChar '%'))

/-- Character class `[-–]` (hyphen or en dash). -/
def reDashC (c : Char) : Bool := c == '-' || c.val == 0x2013

/-- Source regex
`/\b\d+(?:\.\d+)?%(?:\s*[-–]\s*\d+(?:\.\d+)?%)?\s*(?:returns?|upside|profit|gains?)/gi`. -/
def rePercentReturns : RE :=
  .seqs .wb (.seqs rePercentAmount
    (.seqs (.opt (.seqs ws0 (.seqs (.cls reDashC) (.seqs ws0 rePercentAmount))))
      (.seqs ws0
        (.alts (.seqs (ciLit "return") (.opt (ciChar 's')))
          (.alts (ciLit "upside")
            (.alts (ciLit "profit") (.seqs (ciLit "gain") (.opt (ciChar 's')))))))))

/-- Helper for `(?:h(?:ours?)?|min(?:utes?)?|days?)`. -/
def reTimeUnits : RE :=
  .alts (.seqs (ciChar 'h') (.opt (.seqs (ciLit "our") (.opt (ciChar 's')))))
    (.alts (.seqs (ciLit "min") (.opt (.seqs (ciLit "ute") (.opt (ciChar 's')))))
      (.seqs (ciLit "day") (.opt (ciChar 's'))))

/-- Source regex `/(?:for the )?next\s+\d+\s*(?:h(?:ours?)?|min(?:utes?)?|days?)/gi`. -/
def reTimeLimited : RE :=
  .seqs (.opt (ciLit "for the "))
    (.seqs (ciLit "next") (.seqs ws1 (.seqs reDigits (.seqs ws0 reTimeUnits))))

/-- Source regex `/free\s+(?:for\s+)?\d+\s*(?:h(?:ours?)?|min(?:utes?)?|days?)/gi`. -/
def reFreeTimeLimited : RE :=
  .seqs (ciLit "free")
    (.seqs ws1 (.seqs (.opt (.seqs (ciLit "for") ws1))
      (.seqs reDigits (.seqs ws0 reTimeUnits))))

/-- Source regex `/\bfirst\s+\d+\b/gi`. -/
def reFirstN : RE :=
  .seqs .wb (.seqs (ciLit "first") (.seqs ws1 (.seqs reDigits .wb)))

/-- Character class `[\d.]`. -/
def reDigitDotC (c : Char) : Bool := reDigitC c || c == '.'

/-- Source regex `/\bbuy:\s*[\d.]+/gi`. -/
def reBuyPrice : RE :=
  .seqs .wb (.seqs (ciLit "buy:") (.seqs ws0 (many1 reDigitDotC)))

/-- Source regex `/\bsell:\s*[\d.]+/gi`. -/
def reSellPrice : RE :=
  .seqs .wb (.seqs (ciLit "sell:") (.seqs ws0 (many1 reDigitDotC)))

/-- Source regex `/dm\s+me\s+(?:\d+|one|a)\s+word/gi`. -/
def reDmTrigger : RE :=
  .seqs (ciLit "dm") (.seqs ws1 (.seqs (ciLit "me") (.seqs ws1
    (.seqs (.alts reDigits (.alts (ciLit "one") (ciLit "a")))
      (.seqs ws1 (ciLit "word"))))))

/-- Source regex `/in\s+\d+\s*sec(?:onds?)?/gi`. -/
def reCountdown : RE :=
  .seqs (ciLit "in") (.seqs ws1 (.seqs reDigits (.seqs ws0
    (.seqs (ciLit "sec") (.opt (.seqs (ciLit "ond") (.opt (ciChar 's'))))))))

/-- Source regex `/(?:send|deposit)\s+\d+(?:\.\d+)?\s*(?:eth|btc|sol|bnb|usdt|usdc)/gi`. -/
def reCryptoDeposit : RE :=
  .seqs (.alts (ciLit "send") (ciLit "deposit"))
    (.seqs ws1 (.seqs reDigits (.seqs (.opt (.seqs (ciChar '.') reDigits))
      (.seqs ws0
        (.alts (ciLit "eth") (.alts (ciLit "btc") (.alts (ciLit "sol")
          (.alts (ciLit "bnb") (.alts (ciLit "usdt") (ciLit "usdc"))))))))))

/-- Source regex `/check\s*(?:my)?\s*bio/gi`. -/
def reCheckBio : RE :=
  .seqs (ciLit "check") (.seqs ws0 (.seqs (.opt (ciLit "my")) (.seqs ws0 (ciLit "bio"))))

/-- Source regex `/link\s*(?:is)?\s*in\s*(?:my)?\s*bio/gi`. -/
def reLinkInBio : RE :=
  .seqs (ciLit "link") (.seqs ws0 (.seqs (.opt (ciLit "is")) (.seqs ws0
    (.seqs (ciLit "in") (.seqs ws0 (.seqs (.opt (ciLit "my")) (.seqs ws0 (ciLit "bio"))))))))

/-- The `SPAM_REGEX_PATTERNS` table: `[regex, weight, name]` triples. -/
def SPAM_REGEX_PATTERNS : List (RE × Int × String) := [
  (reMultiplier, 5, "multiplier claim"),
  (rePercentReturns, 5, "percentage returns"),
  (reTimeLimited, 4, "time-limited offer"),
  (reFreeTimeLimited, 4, "free time-limited"),
  (reFirstN, 4, "first N spots"),
  (reBuyPrice, 4, "stock buy price"),
  (reSellPrice, 4, "stock sell price"),
  (reDmTrigger, 4, "dm trigger word"),
  (reCountdown, 3, "countdown trigger"),
  (reCryptoDeposit, 5, "crypto deposit request"),
  (reCheckBio, 2, "check bio"),
  (reLinkInBio, 3, "link in bio")]

/-!
URL pattern tables.  A built-in URL pattern is an unanchored case-insensitive
regex; `test` is its matching function on the raw text and `name` is its
JavaScript `toString()` rendering, which `checkUrlPatterns` pushes onto
`matchedPatterns`.  All but the first high-risk pattern are escaped literals,
whose `test` is case-insensitive substring containment.
-/

/-- A URL pattern table entry. -/
structure UrlPat where
  name : String
  test : List Char → Bool

/-- A URL pattern that is an escaped literal regex. -/
def litPat (name lit : String) : UrlPat := ⟨name, fun s => containsCI s lit.data⟩

/-- The branches of the one alternation-shaped high-risk pattern
`/([01]inance|c[0o]inbase|met[a4]m[a4]sk|tr[u0]st|w[a4]llet)/i`, with the
character classes `[01]`, `[0o]`, `[a4]`, `[u0]` expanded. -/
def lookalikeBranches : List String :=
  ["0inance", "1inance", "c0inbase", "coinbase",
   "metamask", "metam4sk", "met4mask", "met4m4sk",
   "trust", "tr0st", "wallet", "w4llet"]

/-- The alternation-shaped high-risk pattern for wallet/exchange lookalikes. -/
def lookalikePat : UrlPat :=
  ⟨"/([01]inance|c[0o]inbase|met[a4]m[a4]sk|tr[u0]st|w[a4]llet)/i",
   fun s => lookalikeBranches.any (fun b => containsCI s b.data)⟩

/-- The `HIGH_RISK_URL_PATTERNS` table (instant red flag). -/
def HIGH_RISK_URL_PATTERNS : List UrlPat := [
  lookalikePat,
  litPat "/admireme\\.vip/i" "admireme.vip",
  litPat "/adulttime\\.com/i" "adulttime.com",
  litPat "/api\\.whatsapp\\.com/i" "api.whatsapp.com",
  litPat "/b1anca\\.com/i" "b1anca.com",
  litPat "/binance\\-/i" "binance-",
  litPat "/biolnk\\.at/i" "biolnk.at",
  litPat "/carrd\\.co/i" "carrd.co",
  litPat "/chat\\.whatsapp\\.com/i" "chat.whatsapp.com",
  litPat "/claim\\-/i" "claim-",
  litPat "/coinbase\\-/i" "coinbase-",
  litPat "/dapp\\-/i" "dapp-",
  litPat "/direct\\.me/i" "direct.me",
  litPat "/fancentro\\.com/i" "fancentro.com",
  litPat "/fans\\.ly/i" "fans.ly",
  litPat "/fansly\\.com/i" "fansly.com",
  litPat "/fanvue\\.com/i" "fanvue.com",
  litPat "/iwantclips\\.com/i" "iwantclips.com",
  litPat "/justfor\\.fans/i" "justfor.fans",
  litPat "/lnk\\.bio/i" "lnk.bio",
  litPat "/loyalfans\\.com/i" "loyalfans.com",
  litPat "/maloum\\.com/i" "maloum.com",
  litPat "/manyvids\\.com/i" "manyvids.com",
  litPat "/metamask\\-/i" "metamask-",
  litPat "/msha\\.ke/i" "msha.ke",
  litPat "/my\\.club/i" "my.club",
  litPat "/my69private\\.site/i" "my69private.site",
  litPat "/mym\\.fans/i" "mym.fans",
  litPat "/onlyfans\\.com/i" "onlyfans.com",
  litPat "/onsx\\.fun/i" "onsx.fun",
  litPat "/pancakeswap\\-/i" "pancakeswap-",
  litPat "/phantom\\-/i" "phantom-",
  litPat "/revoke\\.cash/i" "revoke.cash",
  litPat "/sextpanther\\.com/i" "sextpanther.com",
  litPat "/slushy\\.com/i" "slushy.com",
  litPat "/socialtap\\.me/i" "socialtap.me",
  litPat "/t\\.me\\//i" "t.me/",
  litPat "/taplink\\.cc/i" "taplink.cc",
  litPat "/telegram\\.me/i" "telegram.me",
  litPat "/telegram\\.org/i" "telegram.org",
  litPat "/throne\\.com/i" "throne.com",
  litPat "/trustwallet/i" "trustwallet",
  litPat "/uniswap\\-/i" "uniswap-",
  litPat "/wa\\.me\\//i" "wa.me/",
  litPat "/walletconnect/i" "walletconnect"
]

/-- The `MEDIUM_RISK_URL_PATTERNS` table (suspicious, needs review). -/
def MEDIUM_RISK_URL_PATTERNS : List UrlPat := [
  litPat "/\\/airdrop/i" "/airdrop",
  litPat "/\\/crypto/i" "/crypto",
  litPat "/\\/giveaway/i" "/giveaway",
  litPat "/\\/investment/i" "/investment",
  litPat "/\\/trading/i" "/trading",
  litPat "/adf\\.ly\\//i" "adf.ly/",
  litPat "/allmylinks\\.com/i" "allmylinks.com",
  litPat "/allmysocial\\.me/i" "allmysocial.me",
  litPat "/beacons\\.ai/i" "beacons.ai",
  litPat "/bio\\.link/i" "bio.link",
  litPat "/bio\\.site/i" "bio.site",
  litPat "/bit\\.do/i" "bit.do",
  litPat "/bit\\.ly\\//i" "bit.ly/",
  litPat "/bl\\.ink/i" "bl.ink",
  litPat "/buff\\.ly\\//i" "buff.ly/",
  litPat "/claimmysocial\\.com/i" "claimmysocial.com",
  litPat "/clck\\.ru/i" "clck.ru",
  litPat "/cli\\.re/i" "cli.re",
  litPat "/curiouscat\\.qa/i" "curiouscat.qa",
  litPat "/cutt\\.ly/i" "cutt.ly",
  litPat "/discord\\.com\\/invite/i" "discord.com/invite",
  litPat "/discord\\.gg\\//i" "discord.gg/",
  litPat "/dub\\.sh/i" "dub.sh",
  litPat "/etmysocial\\.me/i" "etmysocial.me",
  litPat "/feedlink\\.io/i" "feedlink.io",
  litPat "/flow\\.page/i" "flow.page",
  litPat "/getmysocial\\.click/i" "getmysocial.click",
  litPat "/getmysocial\\.com/i" "getmysocial.com",
  litPat "/getmysocial\\.ink/i" "getmysocial.ink",
  litPat "/getmysocial\\.net/i" "getmysocial.net",
  litPat "/getmysociale\\.com/i" "getmysociale.com",
  litPat "/getmysocials\\.me/i" "getmysocials.me",
  litPat "/getmysocials\\.net/i" "getmysocials.net",
  litPat "/gg\\.gg/i" "gg.gg",
  litPat "/gmscl\\.com/i" "gmscl.com",
  litPat "/gmysocial\\.com/i" "gmysocial.com",
  litPat "/goo\\.by/i" "goo.by",
  litPat "/goo\\.gl\\//i" "goo.gl/",
  litPat "/heyl\\.ink/i" "heyl.ink",
  litPat "/hypel\\.ink/i" "hypel.ink",
  litPat "/is\\.gd\\//i" "is.gd/",
  litPat "/joy\\.link/i" "joy.link",
  litPat "/justallmy\\.link/i" "justallmy.link",
  litPat "/line\\.me/i" "line.me",
  litPat "/linktr\\.ee/i" "linktr.ee",
  litPat "/lit\\.link/i" "lit.link",
  litPat "/lnk\\.to/i" "lnk.to",
  litPat "/mybios\\.io/i" "mybios.io",
  litPat "/ngl\\.link/i" "ngl.link",
  litPat "/onlysites\\.co/i" "onlysites.co",
  litPat "/ow\\.ly\\//i" "ow.ly/",
  litPat "/rb\\.gy/i" "rb.gy",
  litPat "/rebrand\\.ly/i" "rebrand.ly",
  litPat "/s\\.id/i" "s.id",
  litPat "/shor\\.by/i" "shor.by",
  litPat "/shorte\\.st/i" "shorte.st",
  litPat "/shorturl\\.at/i" "shorturl.at",
  litPat "/short\\.gy/i" "short.gy",
  litPat "/signal\\.group/i" "signal.group",
  litPat "/sleek\\.bio/i" "sleek.bio",
  litPat "/snapchat\\.com\\/add/i" "snapchat.com/add",
  litPat "/snip\\.ly/i" "snip.ly",
  litPat "/solo\\.to/i" "solo.to",
  litPat "/start\\.page/i" "start.page",
  litPat "/t\\.ly\\//i" "t.ly/",
  litPat "/tapfor\\.social/i" "tapfor.social",
  litPat "/tapforallmylinks\\.com/i" "tapforallmylinks.com",
  litPat "/tapformy\\.social/i" "tapformy.social",
  litPat "/tellonym\\.me/i" "tellonym.me",
  litPat "/thisismy\\.social/i" "thisismy.social",
  litPat "/tiny\\.cc/i" "tiny.cc",
  litPat "/tinyurl\\.com/i" "tinyurl.com",
  litPat "/touchmy\\.social/i" "touchmy.social",
  litPat "/unlockmysocial\\.com/i" "unlockmysocial.com",
  litPat "/url\\.bio/i" "url.bio",
  litPat "/v\\.gd/i" "v.gd",
  litPat "/wa\\.link/i" "wa.link",
  litPat "/wlo\\.link/i" "wlo.link",
  litPat "/znap\\.link/i" "znap.link"
]

/-- The `SAFE_DOMAINS` whitelist. -/
def SAFE_DOMAINS : List String := [
  "bandcamp.com",
  "buymeacoffee.com",
  "facebook.com",
  "github.com",
  "instagram.com",
  "ko-fi.com",
  "linkedin.com",
  "medium.com",
  "patreon.com",
  "reddit.com",
  "soundcloud.com",
  "spotify.com",
  "substack.com",
  "tiktok.com",
  "twitch.tv",
  "twitter.com",
  "x.com",
  "youtu.be",
  "youtube.com"
]

/-- The `SPAM_KEYWORD_WEIGHTS` table: each spam phrase with its weight. -/
def SPAM_KEYWORD_WEIGHTS : List (String × Int) := [
  ("crypto", 3),
  ("bitcoin", 2),
  ("ethereum", 2),
  ("trading", 3),
  ("investment", 3),
  ("invest", 3),
  ("profit", 3),
  ("guaranteed", 4),
  ("passive income", 4),
  ("financial freedom", 3),
  ("forex", 4),
  ("binary options", 5),
  ("nft drop", 3),
  ("airdrop", 3),
  ("giveaway", 2),
  ("free money", 5),
  ("double your", 5),
  ("liquidity", 3),
  ("passive returns", 4),
  ("portfolio manager", 3),
  ("signal group", 4),
  ("insider trade", 4),
  ("mentorship", 3),
  ("wealth creation", 3),
  ("seed phrase", 5),
  ("connect wallet", 5),
  ("gas fee", 3),
  ("reimbursement", 3),
  ("urgent", 3),
  ("act now", 4),
  ("limited time", 3),
  ("don\x27t miss", 2),
  ("last chance", 3),
  ("hurry", 2),
  ("expires", 2),
  ("kindly", 3),
  ("dear friend", 4),
  ("dear sir", 3),
  ("dear madam", 3),
  ("congratulations", 2),
  ("you have been selected", 5),
  ("you have won", 5),
  ("claim your", 4),
  ("verify your account", 4),
  ("suspended", 3),
  ("whatsapp", 5),
  ("telegram", 5),
  ("add me on", 4),
  ("message me on", 4),
  ("contact me on", 3),
  ("text me", 3),
  ("dm me on", 3),
  ("lonely", 2),
  ("looking for love", 3),
  ("sugar daddy", 4),
  ("sugar mommy", 4),
  ("sugar baby", 3),
  ("allowance", 2),
  ("spoil you", 3),
  ("spoiling", 3),
  ("verification fee", 5),
  ("gas money", 3),
  ("hey hun", 3),
  ("bored at home", 2),
  ("onlyfans", 4),
  ("fansly", 4),
  ("link in bio", 2),
  ("link in my bio", 3),
  ("check my profile", 2),
  ("check my pinned", 3),
  ("exclusive content", 3),
  ("subscribe", 2),
  ("sub to me", 3),
  ("live show", 4),
  ("sexting", 4),
  ("private session", 3),
  ("top 0%", 3),
  ("uncensored", 3),
  ("raw photos", 4),
  ("raw vids", 4),
  ("no panties", 4),
  ("completely free", 3),
  ("free profile", 3),
  ("free trial", 2),
  ("free for 24", 4),
  ("free just for", 3),
  ("free till midnight", 4),
  ("cumslut", 5),
  ("nude chat", 5),
  ("private followers", 3),
  ("private page", 3),
  ("filthy side", 4),
  ("filthy lil", 4),
  ("drenched", 3),
  ("spreadin", 4),
  ("going wild on myself", 5),
  ("taboo secrets", 4),
  ("curvy body", 2),
  ("perky boobs", 4),
  ("tight pussy", 5),
  ("tight holes", 5),
  ("playing with my", 3),
  ("using my toy", 4),
  ("between my legs", 4),
  ("bent over", 3),
  ("ass up", 4),
  ("bustin hard", 4),
  ("make you throb", 5),
  ("dripping", 3),
  ("gushing", 3),
  ("slippery", 3),
  ("instantly wet", 4),
  ("bimbo mode", 4),
  ("are you busy", 2),
  ("special question", 3),
  ("hope this message meets you well", 4),
  ("friendly stranger", 3),
  ("don\x27t be shy", 2),
  ("tell me something", 2),
  ("temptation", 2),
  ("nervous typing this", 3),
  ("can\x27t wait to see your name", 4),
  ("finally sees", 2),
  ("i hope this finds you well", 3),
  ("can i ask you something", 2),
  ("can i ask u something", 2),
  ("is it fine if i ask", 2),
  ("quick question but be honest", 3),
  ("random but u seem", 3),
  ("this is random but", 2),
  ("hey random but", 2),
  ("real quick", 2),
  ("be honest would u", 3),
  ("you seem familiar", 2),
  ("do we know each other", 2),
  ("i noticed you", 2),
  ("spotted your comment", 3),
  ("noticed your comment", 3),
  ("saw your comment", 2),
  ("saw ur comment", 2),
  ("ur comment", 2),
  ("your comment turned me", 4),
  ("couldn\x27t help but spot", 3),
  ("you look cute", 2),
  ("you looked cute", 2),
  ("u look like the sorta", 3),
  ("you seem like my type", 3),
  ("you give energy", 2),
  ("this might sound weird", 2),
  ("okay confession", 3),
  ("new here", 2),
  ("not very active here", 3),
  ("reaching out from a backup", 4),
  ("till midnight", 4),
  ("until midnight", 4),
  ("limited verification", 4),
  ("free verification phase", 5),
  ("direct path to", 3),
  ("your access is waiting", 4),
  ("begin free now", 4),
  ("join for free", 2),
  ("your likes", 2),
  ("makes me throb", 5),
  ("stock blogger", 5),
  ("reliable stock", 4),
  ("market analysis team", 5),
  ("stocks buying and selling", 5),
  ("trade setups", 4),
  ("stock list", 3),
  ("high-conviction", 4),
  ("crypto signals", 4),
  ("stock signals", 4),
  ("returns is now live", 5),
  ("transform potential into profit", 5),
  ("never recommends junk", 4),
  ("valuable investing", 3),
  ("exclusive investment", 4),
  ("exclusive report", 3),
  ("way better than researching", 4),
  ("hey cutie", 2),
  ("hey handsome", 2),
  ("hey gorgeous", 2),
  ("hey love", 2),
  ("hey babe", 2),
  ("hello handsome", 2),
  ("hello gorgeous", 2),
  ("hi cutie", 2),
  ("thinking of you", 2),
  ("imagining you", 3),
  ("craving", 2),
  ("needy", 2),
  ("desperate for touch", 4),
  ("sensitive and needy", 3),
  ("hot and bothered", 3),
  ("playing with myself", 4),
  ("touching myself", 4),
  ("one click away", 3),
  ("come prove me right", 3),
  ("come get what you do", 3),
  ("come sub now", 4),
  ("come see", 2),
  ("door wide open", 3),
  ("i\x27ll take the lead", 2),
  ("tap the link", 2),
  ("hit the link", 2),
  ("click when you want", 3),
  ("press the picture", 3),
  ("hit my pic", 3),
  ("dm me 1 word", 4),
  ("dm me on of", 4),
  ("slide into", 2),
  ("invaded your dms", 4),
  ("obey me", 3),
  ("slave", 3),
  ("dominance", 2),
  ("behave or misbehave", 3),
  ("quit staring", 3),
  ("stop behaving", 3),
  ("deserve it", 2),
  ("nasty you\x27ll be addicted", 5),
  ("welcome video", 3),
  ("full reveal", 3),
  ("real treat", 2),
  ("unwrap the rest", 3),
  ("what i\x27m hiding", 3),
  ("i need to tell you something", 2),
  ("it will be short", 2),
  ("this shot is merely", 3),
  ("the photo cuts off", 3),
  ("kept the rest uncensored", 4),
  ("didn\x27t show here", 2),
  ("you got this far", 2),
  ("don\x27t dare stop", 3),
  ("still here still soft", 3),
  ("game-changer", 3),
  ("game changer", 3),
  ("the real unlock", 3),
  ("unlock the power", 3),
  ("scaling to the moon", 3),
  ("mining pool", 4),
  ("liquidity pool", 3),
  ("staking rewards", 3),
  ("new ico", 4),
  ("pump and dump", 5),
  ("risk-free", 4),
  ("recovery phrase", 5),
  ("private key", 5),
  ("send me 1 eth", 5),
  ("send me 1 btc", 5),
  ("verify your wallet", 4),
  ("security alert", 3),
  ("working overseas", 3),
  ("in the military", 3),
  ("oil rig", 4),
  ("bad internet", 3),
  ("recently widowed", 3),
  ("medical emergency", 4),
  ("customs fees", 4),
  ("shipping fees", 3),
  ("never felt this way", 3),
  ("soulmate", 2),
  ("paid meetup", 4),
  ("meetup available", 3),
  ("gf experience", 4),
  ("girlfriend experience", 4),
  ("booking info", 2)
]
-- 266 keyword entries


/-!
Data model of the classification result and the classifier functions,
translated from `checkUrlPatterns`, `calculateSpamScore`, `getSpamInfo` and
`getSpamInfoWithAI`.
-/

/-- The `RISK_LEVELS` enumeration. -/
inductive Risk where
  | high | medium | low | safe
deriving DecidableEq, Repr

/-- Result of `checkUrlPatterns`. -/
structure UrlMatchResult where
  isSpam : Bool
  riskLevel : Risk
  matchedPatterns : List String
  hasSafeUrl : Bool
deriving DecidableEq, Repr

/-- One entry of the `matchedKeywords` evidence object: weight, match count,
contribution, and (for dynamic regex rules only) the up-to-three sample
matches stored by the source. -/
structure KwEntry where
  weight : Int
  count : Nat
  contribution : Int
  sample : Option (List String)
deriving DecidableEq, Repr

/-- Result of `calculateSpamScore`; `matchedKeywords` is a JavaScript object,
modelled as an insertion-ordered association list with unique keys. -/
structure KeywordMatchResult where
  score : Int
  matchedKeywords : List (String × KwEntry)
deriving DecidableEq, Repr

/-- The value of the JavaScript expression `text && regexTest`, which is the
falsy `text` itself (null or the empty string) when text is falsy, and a
boolean otherwise. -/
inductive JsBoolish where
  | jsNull
  | jsEmptyStr
  | jsBool (b : Bool)
deriving DecidableEq, Repr

/-- JavaScript truthiness of a `JsBoolish` value. -/
def truthy : JsBoolish → Bool
  | .jsNull => false
  | .jsEmptyStr => false
  | .jsBool b => b

/-- Result of `getSpamInfo`. -/
structure SpamInfo where
  riskLevel : Risk
  score : Int
  urlMatch : UrlMatchResult
  keywordMatch : KeywordMatchResult
  isHiddenLink : JsBoolish
deriving DecidableEq, Repr

/-- The custom rule overlay loaded from storage: `customUrlPatterns` and
`customKeywords`. -/
structure Config where
  customUrlPatterns : List String
  customKeywords : List (String × Int)

/-- The empty custom rule configuration. -/
def emptyCfg : Config := ⟨[], []⟩

/-- JavaScript object lookup in the evidence association list (keys are
unique, so first match is the binding). -/
def lookupKw (m : List (String × KwEntry)) (k : String) : Option KwEntry :=
  match m.find? (fun e => e.1 == k) with
  | some e => some e.2
  | none => none

/-- Non-overlapping count of matches of the keyword regex
`new RegExp("\\b" + escaped(kw) + "\\b", "gi")` in `s`, scanning left to
right.  At each position the fixed-length literal must match
case-insensitively with a word boundary on both sides; after a match the scan
resumes past it, otherwise it advances one character. -/
def kwCountAux (kw : List Char) : Nat → Option Char → List Char → Nat
  | 0, _, _ => 0
  | _ + 1, prev, [] => if kw.isEmpty && boundaryB prev none then 1 else 0
  | fuel + 1, prev, c :: cs =>
    let len := kw.length
    if startsWithCI kw (c :: cs) && boundaryB prev (some c) &&
        boundaryB (((c :: cs).take len).getLast?) ((c :: cs).drop len).head? then
      if len == 0 then 1 + kwCountAux kw fuel (some c) cs
      else 1 + kwCountAux kw fuel (((c :: cs).take len).getLast?) ((c :: cs).drop len)
    else kwCountAux kw fuel (some c) cs

/-- Count of whole-word case-insensitive matches of `kw` in `s`. -/
def countKeyword (s kw : List Char) : Nat := kwCountAux kw (s.length + 1) none s

/-- Accumulator step for the static keyword loop of `calculateSpamScore`. -/
def kwStep (lowerText : List Char) (acc : Int × List (String × KwEntry))
    (e : String × Int) : Int × List (String × KwEntry) :=
  let c := countKeyword lowerText e.1.data
  if 0 < c then
    (acc.1 + e.2 * (c : Int), acc.2 ++ [(e.1, ⟨e.2, c, e.2 * (c : Int), none⟩)])
  else acc

/-- Accumulator step for the dynamic regex loop of `calculateSpamScore`; the
rule is applied to the original-case text and the first three matches are
recorded. -/
def regexStep (text : List Char) (acc : Int × List (String × KwEntry))
    (e : RE × Int × String) : Int × List (String × KwEntry) :=
  let ms := reMatches e.1 text
  if 0 < ms.length then
    (acc.1 + e.2.1 * (ms.length : Int),
     acc.2 ++ [("regex:" ++ e.2.2,
       ⟨e.2.1, ms.length, e.2.1 * (ms.length : Int),
        some ((ms.take 3).map fun l => String.mk l)⟩)])
  else acc

/-- Accumulator step for the custom keyword loop of `calculateSpamScore`. -/
def customStep (lowerText : List Char) (acc : Int × List (String × KwEntry))
    (e : String × Int) : Int × List (String × KwEntry) :=
  let c := countKeyword lowerText e.1.data
  if 0 < c then
    (acc.1 + e.2 * (c : Int), acc.2 ++ [("custom:" ++ e.1, ⟨e.2, c, e.2 * (c : Int), none⟩)])
  else acc

/-- `calculateSpamScore(text)`: static keywords and custom keywords are
matched whole-word case-insensitively against the lower-cased text, dynamic
regex rules globally against the original-case text; each contributes
`weight * count`.  Null or empty text short-circuits to the zero result. -/
def calculateSpamScore (customKeywords : List (String × Int)) (text : Option String) :
    KeywordMatchResult :=
  match text with
  | none => ⟨0, []⟩
  | some t =>
    if t = "" then ⟨0, []⟩
    else
      let lowerText := lowerList t.data
      let acc1 := SPAM_KEYWORD_WEIGHTS.foldl (kwStep lowerText) (0, [])
      let acc2 := SPAM_REGEX_PATTERNS.foldl (regexStep t.data) acc1
      let acc3 := customKeywords.foldl (customStep lowerText) acc2
      ⟨acc3.1, acc3.2⟩

/-- `checkUrlPatterns(text)`: safe domains are sought in the lower-cased text;
high-risk built-ins and custom substrings force `HIGH`; otherwise medium-risk
patterns give `MEDIUM`, downgraded to `LOW` when a safe domain is present. -/
def checkUrlPatterns (customUrlPatterns : List String) (text : Option String) :
    UrlMatchResult :=
  match text with
  | none => ⟨false, .safe, [], false⟩
  | some t =>
    if t = "" then ⟨false, .safe, [], false⟩
    else
      let s := t.data
      let lowerText := lowerList s
      let hasSafeUrl := SAFE_DOMAINS.any fun d => containsCS lowerText d.data
      let highMatches := (HIGH_RISK_URL_PATTERNS.filter fun p => p.test s).map
        fun p => p.name
      let customMatches :=
        ((customUrlPatterns.filter fun cp => containsCS lowerText (lowerList cp.data)).map
          fun cp => "custom:" ++ cp)
      let matched1 := highMatches ++ customMatches
      if 0 < matched1.length then ⟨true, .high, matched1, hasSafeUrl⟩
      else
        let mediumMatches := (MEDIUM_RISK_URL_PATTERNS.filter fun p => p.test s).map
          fun p => p.name
        if 0 < mediumMatches.length then
          ⟨true, if hasSafeUrl then .low else .medium, mediumMatches, hasSafeUrl⟩
        else ⟨false, .safe, [], hasSafeUrl⟩

/-- The hidden-link placeholder detector `text && /^sent a link$/i.test(text.trim())`,
keeping JavaScript's falsy propagation. -/
def hiddenLinkVal (text : Option String) : JsBoolish :=
  match text with
  | none => .jsNull
  | some t =>
    if t = "" then .jsEmptyStr
    else .jsBool (lowerList (jsTrim t.data) == "sent a link".data)

/-- The clamp `Math.min(Math.max(totalScore, 0), 30)`. -/
def jsClamp (x : Int) : Int := min (max x 0) 30

/-- `getSpamInfo(text)`: combine hidden-link penalty, URL tier bonus and
safe-domain discount with the keyword score, clamp to `[0, 30]` and assign
the risk tier. -/
def getSpamInfo (cfg : Config) (text : Option String) : SpamInfo :=
  let isHiddenLink := hiddenLinkVal text
  let urlMatch := checkUrlPatterns cfg.customUrlPatterns text
  let keywordMatch := calculateSpamScore cfg.customKeywords text
  let t0 : Int := keywordMatch.score
  let t1 := if truthy isHiddenLink then t0 + 10 else t0
  let t2 := if urlMatch.riskLevel = .high then t1 + 20
            else if urlMatch.riskLevel = .medium then t1 + 10 else t1
  let t3 := if urlMatch.hasSafeUrl then t2 - 10 else t2
  let totalScore := jsClamp t3
  let riskLevel := if totalScore ≥ 20 then Risk.high
                   else if totalScore ≥ 10 then Risk.medium
                   else if totalScore ≥ 3 then Risk.low
                   else Risk.safe
  ⟨riskLevel, totalScore, urlMatch, keywordMatch, isHiddenLink⟩

/-- `shouldAutoFlag(text)`. -/
def shouldAutoFlag (cfg : Config) (text : Option String) : Bool :=
  (getSpamInfo cfg text).riskLevel = Risk.high

/-!
The confidence-gated model overlay `getSpamInfoWithAI`.  The external
`scanWithAI` collaborator is modelled by its observable outcome: the promise
either rejects (`throwErr`), resolves to `null` (the collaborator's own
signal for unavailability, timeout or malformed response), or resolves to a
verdict `{isSpam, confidence, category, reason}`.  Confidence is a rational.
The case where `scanWithAI` is not defined at all is the flag
`aiAvailable = false`.
-/

/-- Observable outcome of awaiting `scanWithAI(text)`. -/
inductive AiOutcome where
  | throwErr
  | nullVerdict
  | verdict (isSpam : Bool) (confidence : ℚ) (category reason : String)

/-- Result of `getSpamInfoWithAI`: the (possibly overridden) heuristic `info`
object plus the annotation fields the function may set on it. -/
structure AiSpamInfo where
  info : SpamInfo
  aiSkipped : Option String
  aiChecked : Bool
  aiVerdict : Option (Bool × ℚ × String × String)
  aiReason : Option String

/-- `getSpamInfoWithAI(text)`: heuristic first; skip the model when it is not
loaded, when the heuristic tier is already HIGH, when the score is below 5, or
when the text is an unresolved hidden link; otherwise consult it, overriding
to 25/HIGH on a confident spam verdict and to 0/SAFE on a confident not-spam
verdict, and failing open (unchanged heuristic result plus a reason code) on a
null verdict or a thrown error. -/
def getSpamInfoWithAI (cfg : Config) (text : Option String)
    (aiAvailable : Bool) (outcome : AiOutcome) : AiSpamInfo :=
  let info := getSpamInfo cfg text
  if !aiAvailable then ⟨info, none, false, none, none⟩
  else if info.riskLevel = .high then ⟨info, some "already_high_risk", false, none, none⟩
  else if info.score < 5 then ⟨info, some "score_too_low", false, none, none⟩
  else if truthy info.isHiddenLink then
    ⟨info, some "hidden_link_unresolved", false, none, none⟩
  else
    match outcome with
    | .throwErr => ⟨info, some "ai_error", true, none, none⟩
    | .nullVerdict => ⟨info, some "ai_unavailable", true, none, none⟩
    | .verdict isSpam conf cat reason =>
      if isSpam ∧ conf > 0.8 then
        ⟨{ info with score := 25, riskLevel := .high }, none, true,
         some (isSpam, conf, cat, reason), some ("AI: " ++ cat ++ " - " ++ reason)⟩
      else if ¬ isSpam ∧ conf > 0.8 then
        ⟨{ info with score := 0, riskLevel := .safe }, none, true,
         some (isSpam, conf, cat, reason), some ("AI cleared: " ++ reason)⟩
      else ⟨info, none, true, some (isSpam, conf, cat, reason), none⟩

/-!
Stateful view of the dynamic regex rules.  The twelve rules are shared
`RegExp` objects carrying the `g` flag, so they own a mutable `lastIndex`.
`getSpamInfoS` threads that state explicitly (one `lastIndex` per rule, in
table order) so that purity across successive calls can be stated rather than
assumed.
-/

/-- ECMAScript `String.prototype.match` with a global regex: `lastIndex` is
set to 0 before the scan, all matches are collected from position 0, and
`lastIndex` is 0 again once the scan fails at the end.  The incoming
`lastIndex` is therefore ignored and the outgoing one is 0. -/
def matchG (re : RE) (s : List Char) (_lastIdx : Nat) : List (List Char) × Nat :=
  (reMatches re s, 0)

/-- The dynamic-regex loop of `calculateSpamScore`, threading each rule's
`lastIndex`. -/
def regexLoopS (text : List Char) :
    List (RE × Int × String) → (Int × List (String × KwEntry)) → List Nat →
    (Int × List (String × KwEntry)) × List Nat
  | [], acc, _ => (acc, [])
  | e :: rules, acc, σ =>
    let ms := (matchG e.1 text (σ.headD 0)).1
    let li2 := (matchG e.1 text (σ.headD 0)).2
    let acc2 := if 0 < ms.length then
        (acc.1 + e.2.1 * (ms.length : Int),
         acc.2 ++ [("regex:" ++ e.2.2,
           ⟨e.2.1, ms.length, e.2.1 * (ms.length : Int),
            some ((ms.take 3).map fun l => String.mk l)⟩)])
      else acc
    let r := regexLoopS text rules acc2 σ.tail
    (r.1, li2 :: r.2)

/-- `calculateSpamScore` with the regex `lastIndex` state made explicit. -/
def calculateSpamScoreS (customKeywords : List (String × Int)) (text : Option String)
    (σ : List Nat) : KeywordMatchResult × List Nat :=
  match text with
  | none => (⟨0, []⟩, σ)
  | some t =>
    if t = "" then (⟨0, []⟩, σ)
    else
      let lowerText := lowerList t.data
      let acc1 := SPAM_KEYWORD_WEIGHTS.foldl (kwStep lowerText) (0, [])
      let r := regexLoopS t.data SPAM_REGEX_PATTERNS acc1 σ
      let acc3 := customKeywords.foldl (customStep lowerText) r.1
      (⟨acc3.1, acc3.2⟩, r.2)

/-- `getSpamInfo` with the regex `lastIndex` state made explicit. -/
def getSpamInfoS (cfg : Config) (text : Option String) (σ : List Nat) :
    SpamInfo × List Nat :=
  let isHiddenLink := hiddenLinkVal text
  let urlMatch := checkUrlPatterns cfg.customUrlPatterns text
  let r := calculateSpamScoreS cfg.customKeywords text σ
  let keywordMatch := r.1
  let t0 : Int := keywordMatch.score
  let t1 := if truthy isHiddenLink then t0 + 10 else t0
  let t2 := if urlMatch.riskLevel = .high then t1 + 20
            else if urlMatch.riskLevel = .medium then t1 + 10 else t1
  let t3 := if urlMatch.hasSafeUrl then t2 - 10 else t2
  let totalScore := jsClamp t3
  let riskLevel := if totalScore ≥ 20 then Risk.high
                   else if totalScore ≥ 10 then Risk.medium
                   else if totalScore ≥ 3 then Risk.low
                   else Risk.safe
  (⟨riskLevel, totalScore, urlMatch, keywordMatch, isHiddenLink⟩, r.2)

/-- The risk-tier threshold function of the specification (section 3): HIGH
iff score ≥ 20, else MEDIUM iff score ≥ 10, else LOW iff score ≥ 3, else
SAFE.  Stated from the spec for comparison with the tier the code returns. -/
def riskOf (s : Int) : Risk :=
  if s ≥ 20 then Risk.high
  else if s ≥ 10 then Risk.medium
  else if s ≥ 3 then Risk.low
  else Risk.safe

/-- Sum of the `contribution` fields of an evidence list. -/
def kmTotal (m : List (String × KwEntry)) : Int :=
  (m.map fun p => p.2.contribution).sum

/-! Helper lemmas. -/

theorem jsClamp_nonneg (x : Int) : 0 ≤ jsClamp x := by
  unfold jsClamp; omega

theorem jsClamp_le_30 (x : Int) : jsClamp x ≤ 30 := by
  unfold jsClamp; omega

theorem jsClamp_ge_20 {x : Int} (h : 20 ≤ x) : 20 ≤ jsClamp x := by
  unfold jsClamp; omega

/-- The tier assignment inside `getSpamInfo` is literally the threshold
function `riskOf` applied to the returned score. -/
theorem riskLevel_eq_riskOf (cfg : Config) (text : Option String) :
    (getSpamInfo cfg text).riskLevel = riskOf ((getSpamInfo cfg text).score) := rfl

theorem riskOf_of_ge_20 {s : Int} (h : 20 ≤ s) : riskOf s = Risk.high := by
  unfold riskOf; rw [if_pos h]

/-- The score the aggregator returns, written with the three bonuses and the
discount as explicit summands. -/
theorem getSpamInfo_score_eq (cfg : Config) (text : Option String) :
    (getSpamInfo cfg text).score =
      jsClamp ((calculateSpamScore cfg.customKeywords text).score
        + (if truthy (hiddenLinkVal text) then 10 else 0)
        + (if (checkUrlPatterns cfg.customUrlPatterns text).riskLevel = .high then 20
           else if (checkUrlPatterns cfg.customUrlPatterns text).riskLevel = .medium
             then 10 else 0)
        - (if (checkUrlPatterns cfg.customUrlPatterns text).hasSafeUrl then 10 else 0)) := by
  unfold getSpamInfo
  dsimp only
  congr 1
  split_ifs <;> omega

theorem getSpamInfo_urlMatch (cfg : Config) (text : Option String) :
    (getSpamInfo cfg text).urlMatch = checkUrlPatterns cfg.customUrlPatterns text := rfl

theorem getSpamInfo_keywordMatch (cfg : Config) (text : Option String) :
    (getSpamInfo cfg text).keywordMatch = calculateSpamScore cfg.customKeywords text := rfl

theorem getSpamInfo_isHiddenLink (cfg : Config) (text : Option String) :
    (getSpamInfo cfg text).isHiddenLink = hiddenLinkVal text := rfl

/-- Generic lower-bound preservation along a `foldl` whose first component
only grows on the elements of the list. -/
theorem foldl_fst_le {α E : Type} (f : (Int × E) → α → (Int × E)) :
    ∀ (l : List α), (∀ acc a, a ∈ l → acc.1 ≤ (f acc a).1) →
      ∀ init : Int × E, init.1 ≤ (l.foldl f init).1 := by
  intro l
  induction l with
  | nil => intro _ init; exact le_refl _
  | cons a l ih =>
    intro h init
    calc init.1 ≤ (f init a).1 := h init a (List.mem_cons_self a l)
    _ ≤ (l.foldl f (f init a)).1 := ih (fun acc b hb => h acc b (List.mem_cons_of_mem a hb)) _

theorem kwStep_fst_le {lt : List Char} {acc : Int × List (String × KwEntry)}
    {e : String × Int} (hw : 0 ≤ e.2) : acc.1 ≤ (kwStep lt acc e).1 := by
  unfold kwStep
  dsimp only
  split
  · have : (0 : Int) ≤ e.2 * (countKeyword lt e.1.data : Int) :=
      mul_nonneg hw (Int.natCast_nonneg _)
    simp only []
    omega
  · exact le_refl _

theorem regexStep_fst_le {td : List Char} {acc : Int × List (String × KwEntry)}
    {e : RE × Int × String} (hw : 0 ≤ e.2.1) : acc.1 ≤ (regexStep td acc e).1 := by
  unfold regexStep
  dsimp only
  split
  · have : (0 : Int) ≤ e.2.1 * ((reMatches e.1 td).length : Int) :=
      mul_nonneg hw (Int.natCast_nonneg _)
    omega
  · exact le_refl _

theorem customStep_fst_le {lt : List Char} {acc : Int × List (String × KwEntry)}
    {e : String × Int} (hw : 0 ≤ e.2) : acc.1 ≤ (customStep lt acc e).1 := by
  unfold customStep
  dsimp only
  split
  · have : (0 : Int) ≤ e.2 * (countKeyword lt e.1.data : Int) :=
      mul_nonneg hw (Int.natCast_nonneg _)
    omega
  · exact le_refl _

/-- All static keyword weights are nonnegative. -/
theorem static_weights_nonneg : ∀ e ∈ SPAM_KEYWORD_WEIGHTS, (0 : Int) ≤ e.2 := by decide

/-- All dynamic regex rule weights are nonnegative. -/
theorem regex_weights_nonneg : ∀ e ∈ SPAM_REGEX_PATTERNS, (0 : Int) ≤ e.2.1 := by decide

/-- With nonnegative custom keyword weights the keyword score is
nonnegative. -/
theorem calculateSpamScore_nonneg (ck : List (String × Int)) (text : Option String)
    (hck : ∀ p ∈ ck, (0 : Int) ≤ p.2) : 0 ≤ (calculateSpamScore ck text).score := by
  unfold calculateSpamScore
  match text with
  | none => exact le_refl 0
  | some t =>
    dsimp only
    split
    · exact le_refl 0
    · have h1 : (0 : Int) ≤
          (SPAM_KEYWORD_WEIGHTS.foldl (kwStep (lowerList t.data)) (0, [])).1 :=
        foldl_fst_le _ _ (fun acc a ha => kwStep_fst_le (static_weights_nonneg a ha)) _
      have h2 := foldl_fst_le (regexStep t.data) SPAM_REGEX_PATTERNS
        (fun acc a ha => regexStep_fst_le (regex_weights_nonneg a ha))
        (SPAM_KEYWORD_WEIGHTS.foldl (kwStep (lowerList t.data)) (0, []))
      have h3 := foldl_fst_le (customStep (lowerList t.data)) ck
        (fun acc a ha => customStep_fst_le (hck a ha))
        (SPAM_REGEX_PATTERNS.foldl (regexStep t.data)
          (SPAM_KEYWORD_WEIGHTS.foldl (kwStep (lowerList t.data)) (0, [])))
      exact le_trans h1 (le_trans h2 h3)

/-! Lookup lemmas for the evidence association list. -/

theorem lookupKw_append (m1 m2 : List (String × KwEntry)) (k : String) :
    lookupKw (m1 ++ m2) k =
      match lookupKw m1 k with
      | some e => some e
      | none => lookupKw m2 k := by
  induction m1 with
  | nil => rfl
  | cons a m1 ih =>
    by_cases hc : (a.1 == k) = true
    · simp [lookupKw, List.find?, hc]
    · simp only [List.cons_append]
      simp only [lookupKw, List.find?, hc] at ih ⊢
      exact ih

theorem lookupKw_append_left {m1 : List (String × KwEntry)} (m2 : List (String × KwEntry))
    {k : String} {e : KwEntry} (h : lookupKw m1 k = some e) :
    lookupKw (m1 ++ m2) k = some e := by
  rw [lookupKw_append, h]

theorem lookupKw_append_right {m1 : List (String × KwEntry)} (m2 : List (String × KwEntry))
    {k : String} (h : lookupKw m1 k = none) :
    lookupKw (m1 ++ m2) k = lookupKw m2 k := by
  rw [lookupKw_append, h]

theorem lookupKw_single_eq (k : String) (e : KwEntry) : lookupKw [(k, e)] k = some e := by
  simp [lookupKw, List.find?]

theorem lookupKw_single_ne {k k' : String} (h : k' ≠ k) (e : KwEntry) :
    lookupKw [(k', e)] k = none := by
  simp [lookupKw, List.find?, beq_eq_false_iff_ne.mpr h]

theorem lookupKw_eq_none (m : List (String × KwEntry)) (k : String)
    (h : ∀ p ∈ m, p.1 ≠ k) : lookupKw m k = none := by
  unfold lookupKw
  rw [List.find?_eq_none.mpr ?_]
  intro p hp
  simpa using h p hp

/-! Characterization of the three evidence-building folds. -/

theorem kwFold_lookup_preserved (lt : List Char) (l : List (String × Int))
    {init : Int × List (String × KwEntry)} {k : String} {e : KwEntry}
    (h : lookupKw init.2 k = some e) :
    lookupKw ((l.foldl (kwStep lt) init)).2 k = some e := by
  induction l generalizing init with
  | nil => exact h
  | cons a l ih =>
    simp only [List.foldl_cons]
    apply ih
    unfold kwStep
    dsimp only
    split
    · exact lookupKw_append_left _ h
    · exact h

theorem regexFold_lookup_preserved (td : List Char) (l : List (RE × Int × String))
    {init : Int × List (String × KwEntry)} {k : String} {e : KwEntry}
    (h : lookupKw init.2 k = some e) :
    lookupKw ((l.foldl (regexStep td) init)).2 k = some e := by
  induction l generalizing init with
  | nil => exact h
  | cons a l ih =>
    simp only [List.foldl_cons]
    apply ih
    unfold regexStep
    dsimp only
    split
    · exact lookupKw_append_left _ h
    · exact h

theorem customFold_lookup_preserved (lt : List Char) (l : List (String × Int))
    {init : Int × List (String × KwEntry)} {k : String} {e : KwEntry}
    (h : lookupKw init.2 k = some e) :
    lookupKw ((l.foldl (customStep lt) init)).2 k = some e := by
  induction l generalizing init with
  | nil => exact h
  | cons a l ih =>
    simp only [List.foldl_cons]
    apply ih
    unfold customStep
    dsimp only
    split
    · exact lookupKw_append_left _ h
    · exact h

theorem kwFold_keys (lt : List Char) (l : List (String × Int)) :
    ∀ (init : Int × List (String × KwEntry)) (p : String × KwEntry),
      p ∈ (l.foldl (kwStep lt) init).2 → p ∈ init.2 ∨ p.1 ∈ l.map Prod.fst := by
  induction l with
  | nil => intro _ p hp; exact Or.inl hp
  | cons a l ih =>
    intro init p hp
    simp only [List.foldl_cons] at hp
    rcases ih _ p hp with h | h
    · revert h
      unfold kwStep
      dsimp only
      split
      · intro h
        rcases List.mem_append.mp h with h | h
        · exact Or.inl h
        · right
          simp only [List.mem_singleton] at h
          subst h
          simp
      · exact fun h => Or.inl h
    · right
      simp only [List.map_cons]
      exact List.mem_cons_of_mem _ h

theorem regexFold_keys (td : List Char) (l : List (RE × Int × String)) :
    ∀ (init : Int × List (String × KwEntry)) (p : String × KwEntry),
      p ∈ (l.foldl (regexStep td) init).2 →
        p ∈ init.2 ∨ ∃ r ∈ l, p.1 = "regex:" ++ r.2.2 := by
  induction l with
  | nil => intro _ p hp; exact Or.inl hp
  | cons a l ih =>
    intro init p hp
    simp only [List.foldl_cons] at hp
    rcases ih _ p hp with h | h
    · revert h
      unfold regexStep
      dsimp only
      split
      · intro h
        rcases List.mem_append.mp h with h | h
        · exact Or.inl h
        · right
          simp only [List.mem_singleton] at h
          subst h
          exact ⟨a, List.mem_cons_self a l, rfl⟩
      · exact fun h => Or.inl h
    · rcases h with ⟨r, hr, hpr⟩
      exact Or.inr ⟨r, List.mem_cons_of_mem _ hr, hpr⟩

theorem kwFold_lookup_insert (lt : List Char) (l : List (String × Int)) :
    ∀ (init : Int × List (String × KwEntry)) (k : String) (w : Int),
      (k, w) ∈ l → (l.map Prod.fst).Nodup → lookupKw init.2 k = none →
      0 < countKeyword lt k.data →
      lookupKw ((l.foldl (kwStep lt) init)).2 k =
        some ⟨w, countKeyword lt k.data, w * (countKeyword lt k.data : Int), none⟩ := by
  induction l with
  | nil => intro _ _ _ h; exact absurd h (List.not_mem_nil _)
  | cons a l ih =>
    intro init k w hmem hnd hnone hc
    simp only [List.map_cons, List.nodup_cons] at hnd
    simp only [List.foldl_cons]
    rcases List.mem_cons.mp hmem with heq | htail
    · have ha : a = (k, w) := heq.symm
      subst ha
      apply kwFold_lookup_preserved
      unfold kwStep
      dsimp only
      rw [if_pos hc]
      dsimp only
      rw [lookupKw_append_right _ hnone]
      exact lookupKw_single_eq _ _
    · have hk1 : a.1 ≠ k := by
        intro h
        exact hnd.1 (h ▸ List.mem_map.mpr ⟨(k, w), htail, rfl⟩)
      apply ih _ k w htail hnd.2 _ hc
      unfold kwStep
      dsimp only
      split
      · rw [lookupKw_append_right _ hnone]
        exact lookupKw_single_ne hk1 _
      · exact hnone

theorem customFold_lookup_insert (lt : List Char) (l : List (String × Int)) :
    ∀ (init : Int × List (String × KwEntry)) (k : String) (w : Int),
      (k, w) ∈ l → (l.map Prod.fst).Nodup → lookupKw init.2 ("custom:" ++ k) = none →
      0 < countKeyword lt k.data →
      lookupKw ((l.foldl (customStep lt) init)).2 ("custom:" ++ k) =
        some ⟨w, countKeyword lt k.data, w * (countKeyword lt k.data : Int), none⟩ := by
  induction l with
  | nil => intro _ _ _ h; exact absurd h (List.not_mem_nil _)
  | cons a l ih =>
    intro init k w hmem hnd hnone hc
    simp only [List.map_cons, List.nodup_cons] at hnd
    simp only [List.foldl_cons]
    rcases List.mem_cons.mp hmem with heq | htail
    · have ha : a = (k, w) := heq.symm
      subst ha
      apply customFold_lookup_preserved
      unfold customStep
      dsimp only
      rw [if_pos hc]
      dsimp only
      rw [lookupKw_append_right _ hnone]
      exact lookupKw_single_eq _ _
    · have hk1 : a.1 ≠ k := by
        intro h
        exact hnd.1 (h ▸ List.mem_map.mpr ⟨(k, w), htail, rfl⟩)
      have hck : ("custom:" ++ a.1) ≠ ("custom:" ++ k) := by
        intro h
        apply hk1
        have := congrArg String.data h
        simp only [String.data_append] at this
        exact String.ext (List.append_cancel_left this)
      apply ih _ k w htail hnd.2 _ hc
      unfold customStep
      dsimp only
      split
      · rw [lookupKw_append_right _ hnone]
        exact lookupKw_single_ne hck _
      · exact hnone

theorem regexFold_lookup_insert (td : List Char) (l : List (RE × Int × String)) :
    ∀ (init : Int × List (String × KwEntry)) (re : RE) (w : Int) (name : String),
      (re, w, name) ∈ l → (l.map fun e => e.2.2).Nodup →
      lookupKw init.2 ("regex:" ++ name) = none →
      0 < (reMatches re td).length →
      lookupKw ((l.foldl (regexStep td) init)).2 ("regex:" ++ name) =
        some ⟨w, (reMatches re td).length, w * ((reMatches re td).length : Int),
          some (((reMatches re td).take 3).map fun m => String.mk m)⟩ := by
  induction l with
  | nil => intro _ _ _ _ h; exact absurd h (List.not_mem_nil _)
  | cons a l ih =>
    intro init re w name hmem hnd hnone hc
    simp only [List.map_cons, List.nodup_cons] at hnd
    simp only [List.foldl_cons]
    rcases List.mem_cons.mp hmem with heq | htail
    · have ha : a = (re, w, name) := heq.symm
      subst ha
      apply regexFold_lookup_preserved
      unfold regexStep
      dsimp only
      rw [if_pos hc]
      dsimp only
      rw [lookupKw_append_right _ hnone]
      exact lookupKw_single_eq _ _
    · have hk1 : a.2.2 ≠ name := by
        intro h
        exact hnd.1 (h ▸ List.mem_map.mpr ⟨(re, w, name), htail, rfl⟩)
      have hrk : ("regex:" ++ a.2.2) ≠ ("regex:" ++ name) := by
        intro h
        apply hk1
        have := congrArg String.data h
        simp only [String.data_append] at this
        exact String.ext (List.append_cancel_left this)
      apply ih _ re w name htail hnd.2 _ hc
      unfold regexStep
      dsimp only
      split
      · rw [lookupKw_append_right _ hnone]
        exact lookupKw_single_ne hrk _
      · exact hnone

/-! The keyword score is the sum of the recorded contributions. -/

theorem kmTotal_append (m1 m2 : List (String × KwEntry)) :
    kmTotal (m1 ++ m2) = kmTotal m1 + kmTotal m2 := by
  unfold kmTotal
  rw [List.map_append, List.sum_append]

theorem foldl_kmTotal_inv {α : Type} (f : (Int × List (String × KwEntry)) → α →
      (Int × List (String × KwEntry)))
    (hf : ∀ acc a, (f acc a).1 - kmTotal (f acc a).2 = acc.1 - kmTotal acc.2) :
    ∀ (l : List α) (init : Int × List (String × KwEntry)),
      (l.foldl f init).1 - kmTotal (l.foldl f init).2 = init.1 - kmTotal init.2 := by
  intro l
  induction l with
  | nil => intro _; rfl
  | cons a l ih =>
    intro init
    simp only [List.foldl_cons]
    rw [ih (f init a), hf init a]

theorem kwStep_kmTotal (lt : List Char) (acc : Int × List (String × KwEntry))
    (e : String × Int) :
    (kwStep lt acc e).1 - kmTotal (kwStep lt acc e).2 = acc.1 - kmTotal acc.2 := by
  unfold kwStep
  dsimp only
  split
  · rw [kmTotal_append]
    simp [kmTotal]
  · rfl

theorem regexStep_kmTotal (td : List Char) (acc : Int × List (String × KwEntry))
    (e : RE × Int × String) :
    (regexStep td acc e).1 - kmTotal (regexStep td acc e).2 = acc.1 - kmTotal acc.2 := by
  unfold regexStep
  dsimp only
  split
  · rw [kmTotal_append]
    simp [kmTotal]
  · rfl

theorem customStep_kmTotal (lt : List Char) (acc : Int × List (String × KwEntry))
    (e : String × Int) :
    (customStep lt acc e).1 - kmTotal (customStep lt acc e).2 = acc.1 - kmTotal acc.2 := by
  unfold customStep
  dsimp only
  split
  · rw [kmTotal_append]
    simp [kmTotal]
  · rfl

/-- The score field of `calculateSpamScore` is exactly the sum of the
contributions recorded in its evidence map: nothing is scored without being
recorded, and nothing recorded is left out of the score. -/
theorem calculateSpamScore_score_total (ck : List (String × Int)) (text : Option String) :
    (calculateSpamScore ck text).score =
      kmTotal (calculateSpamScore ck text).matchedKeywords := by
  unfold calculateSpamScore
  match text with
  | none => rfl
  | some t =>
    dsimp only
    split
    · rfl
    · have h1 := foldl_kmTotal_inv _ (kwStep_kmTotal (lowerList t.data))
        SPAM_KEYWORD_WEIGHTS (0, [])
      have h2 := foldl_kmTotal_inv _ (regexStep_kmTotal t.data) SPAM_REGEX_PATTERNS
        (SPAM_KEYWORD_WEIGHTS.foldl (kwStep (lowerList t.data)) (0, []))
      have h3 := foldl_kmTotal_inv _ (customStep_kmTotal (lowerList t.data)) ck
        (SPAM_REGEX_PATTERNS.foldl (regexStep t.data)
          (SPAM_KEYWORD_WEIGHTS.foldl (kwStep (lowerList t.data)) (0, [])))
      dsimp only
      dsimp only at h1
      have hz : kmTotal [] = 0 := rfl
      rw [hz] at h1
      omega

/-! Facts about the static tables needed for key-collision reasoning. -/

/-- No static keyword contains a colon, so no static evidence key can equal a
`custom:` or `regex:` namespaced key. -/
theorem static_keys_no_colon : ∀ e ∈ SPAM_KEYWORD_WEIGHTS, ¬ (':' ∈ e.1.data) := by decide

/-- The static keyword table has no duplicate keys. -/
theorem static_keys_nodup : (SPAM_KEYWORD_WEIGHTS.map Prod.fst).Nodup := by decide

/-- The dynamic regex rule names are pairwise distinct. -/
theorem regex_names_nodup : (SPAM_REGEX_PATTERNS.map fun e => e.2.2).Nodup := by decide

theorem colon_mem_custom_key (k : String) : ':' ∈ ("custom:" ++ k).data := by
  rw [String.data_append]
  exact List.mem_append.mpr (Or.inl (by decide))

theorem colon_mem_regex_key (k : String) : ':' ∈ ("regex:" ++ k).data := by
  rw [String.data_append]
  exact List.mem_append.mpr (Or.inl (by decide))

theorem custom_key_ne_regex_key (k n : String) : "regex:" ++ n ≠ "custom:" ++ k := by
  intro h
  have h2 := congrArg String.data h
  simp only [String.data_append] at h2
  simp only [List.cons_append, List.cons.injEq] at h2
  exact absurd h2.1 (by decide)

/-! Lemmas about `checkUrlPatterns`. -/

theorem checkUrl_high (cu : List String) (t : String) (hne : ¬ (t = ""))
    (h : (HIGH_RISK_URL_PATTERNS.any fun p => p.test t.data) = true ∨
         (cu.any fun cp => containsCS (lowerList t.data) (lowerList cp.data)) = true) :
    (checkUrlPatterns cu (some t)).riskLevel = Risk.high ∧
    (checkUrlPatterns cu (some t)).hasSafeUrl =
      (SAFE_DOMAINS.any fun d => containsCS (lowerList t.data) d.data) := by
  have hlen : 0 <
      (((HIGH_RISK_URL_PATTERNS.filter fun p => p.test t.data).map fun p => p.name) ++
        ((cu.filter fun cp => containsCS (lowerList t.data) (lowerList cp.data)).map
          fun cp => "custom:" ++ cp)).length := by
    rcases h with h | h
    · rcases List.any_eq_true.mp h with ⟨p, hp, hpt⟩
      have hm : p ∈ HIGH_RISK_URL_PATTERNS.filter fun p => p.test t.data :=
        List.mem_filter.mpr ⟨hp, hpt⟩
      have h2 := List.length_pos.mpr
        (List.ne_nil_of_mem (List.mem_map_of_mem (fun p => p.name) hm))
      rw [List.length_append]
      omega
    · rcases List.any_eq_true.mp h with ⟨cp, hp, hpt⟩
      have hm : cp ∈ cu.filter fun cp => containsCS (lowerList t.data) (lowerList cp.data) :=
        List.mem_filter.mpr ⟨hp, hpt⟩
      have h2 := List.length_pos.mpr
        (List.ne_nil_of_mem (List.mem_map_of_mem (fun cp => "custom:" ++ cp) hm))
      rw [List.length_append]
      omega
  unfold checkUrlPatterns
  dsimp only
  rw [if_neg hne]
  rw [if_pos hlen]
  exact ⟨rfl, rfl⟩

theorem checkUrl_medium_downgrade (t : String) (hne : ¬ (t = ""))
    (hnothigh : ∀ p ∈ HIGH_RISK_URL_PATTERNS, ¬ (p.test t.data = true))
    (hmed : (MEDIUM_RISK_URL_PATTERNS.any fun p => p.test t.data) = true)
    (hsafe : (SAFE_DOMAINS.any fun d => containsCS (lowerList t.data) d.data) = true) :
    (checkUrlPatterns [] (some t)).riskLevel = Risk.low := by
  have hhilt : (HIGH_RISK_URL_PATTERNS.filter fun p => p.test t.data) = [] := by
    rw [List.filter_eq_nil_iff]
    intro p hp
    simpa using hnothigh p hp
  have hmlen : 0 <
      ((MEDIUM_RISK_URL_PATTERNS.filter fun p => p.test t.data).map fun p => p.name).length := by
    rcases List.any_eq_true.mp hmed with ⟨p, hp, hpt⟩
    exact List.length_pos.mpr
      (List.ne_nil_of_mem (List.mem_map_of_mem (fun p => p.name)
        (List.mem_filter.mpr ⟨hp, hpt⟩)))
  unfold checkUrlPatterns
  dsimp only
  rw [if_neg hne, hhilt]
  rw [if_neg (by simp)]
  rw [if_pos hmlen]
  rw [hsafe]
  rfl

/-! The stateful classifier computes the same result as the pure one. -/

theorem regexLoopS_fst (text : List Char) (l : List (RE × Int × String)) :
    ∀ (acc : Int × List (String × KwEntry)) (σ : List Nat),
      (regexLoopS text l acc σ).1 = l.foldl (regexStep text) acc := by
  induction l with
  | nil => intro acc σ; rfl
  | cons e l ih =>
    intro acc σ
    simp only [regexLoopS, List.foldl_cons, matchG]
    rw [ih]
    rfl

theorem calculateSpamScoreS_fst (ck : List (String × Int)) (text : Option String)
    (σ : List Nat) : (calculateSpamScoreS ck text σ).1 = calculateSpamScore ck text := by
  unfold calculateSpamScoreS calculateSpamScore
  match text with
  | none => rfl
  | some t =>
    dsimp only
    split
    · rfl
    · rw [regexLoopS_fst]

theorem getSpamInfoS_fst (cfg : Config) (text : Option String) (σ : List Nat) :
    (getSpamInfoS cfg text σ).1 = getSpamInfo cfg text := by
  unfold getSpamInfoS getSpamInfo
  dsimp only
  rw [calculateSpamScoreS_fst]

/-! Claim theorems. -/

/-- C3: for every input text (including null and the empty string) and every
custom rule configuration, the score field of the classification result is an
integer in the closed interval [0, 30]. -/
theorem spam_C3_score_bounded (cfg : Config) (text : Option String) :
    0 ≤ (getSpamInfo cfg text).score ∧ (getSpamInfo cfg text).score ≤ 30 := by
  rw [getSpamInfo_score_eq]
  exact ⟨jsClamp_nonneg _, jsClamp_le_30 _⟩

/-- C4: for every input text and every custom rule configuration, the risk
level returned by the classifier equals the ordered threshold function
`riskOf` (HIGH iff score ≥ 20, else MEDIUM iff score ≥ 10, else LOW iff
score ≥ 3, else SAFE) applied to the returned score. -/
theorem spam_C4_tier_from_score (cfg : Config) (text : Option String) :
    (getSpamInfo cfg text).riskLevel = riskOf ((getSpamInfo cfg text).score) :=
  riskLevel_eq_riskOf cfg text

/-- C9: for fixed tables, classification is a pure, deterministic function of
its inputs: with the mutable `lastIndex` state of the shared global dynamic
regexes threaded explicitly, two successive calls on the same text return
identical results, each equal to the pure classification. -/
theorem spam_C9_idempotent (cfg : Config) (text : Option String) (σ : List Nat) :
    (getSpamInfoS cfg text σ).1 =
      (getSpamInfoS cfg text ((getSpamInfoS cfg text σ).2)).1 ∧
    (getSpamInfoS cfg text σ).1 = getSpamInfo cfg text := by
  refine ⟨?_, getSpamInfoS_fst cfg text σ⟩
  rw [getSpamInfoS_fst, getSpamInfoS_fst]

/-- C10: for null input the `isHiddenLink` field is the null value itself and
for empty-string input it is the empty string itself (the JavaScript
conjunction `text && regexTest` propagates the falsy text), while score, tier
and both evidence collections are the SAFE zero result; for nonempty text the
field is a genuine boolean. -/
theorem spam_C10_falsy_hidden (cfg : Config) :
    getSpamInfo cfg none =
      ⟨Risk.safe, 0, ⟨false, Risk.safe, [], false⟩, ⟨0, []⟩, JsBoolish.jsNull⟩ ∧
    getSpamInfo cfg (some "") =
      ⟨Risk.safe, 0, ⟨false, Risk.safe, [], false⟩, ⟨0, []⟩, JsBoolish.jsEmptyStr⟩ ∧
    (∀ t : String, ¬ (t = "") →
      ∃ b : Bool, (getSpamInfo cfg (some t)).isHiddenLink = JsBoolish.jsBool b) := by
  refine ⟨rfl, rfl, ?_⟩
  intro t ht
  rw [getSpamInfo_isHiddenLink]
  unfold hiddenLinkVal
  dsimp only
  rw [if_neg ht]
  exact ⟨_, rfl⟩

/-- Closed instance of the C10 theorem at a concrete configuration and a
concrete nonempty text. -/
theorem spam_C10_witness :
    getSpamInfo emptyCfg none =
      ⟨Risk.safe, 0, ⟨false, Risk.safe, [], false⟩, ⟨0, []⟩, JsBoolish.jsNull⟩ ∧
    getSpamInfo emptyCfg (some "") =
      ⟨Risk.safe, 0, ⟨false, Risk.safe, [], false⟩, ⟨0, []⟩, JsBoolish.jsEmptyStr⟩ ∧
    (∃ b : Bool, (getSpamInfo emptyCfg (some "hello")).isHiddenLink = JsBoolish.jsBool b) :=
  ⟨(spam_C10_falsy_hidden emptyCfg).1, (spam_C10_falsy_hidden emptyCfg).2.1,
   (spam_C10_falsy_hidden emptyCfg).2.2 "hello" (by decide)⟩

/-- C6: the exact placeholder text "sent a link" classifies with
`isHiddenLink = true`, score 10 and tier MEDIUM; in general `isHiddenLink` is
the boolean true exactly when the trimmed text equals the placeholder literal
case-insensitively (an exact match, not a substring match, as the third
conjunct shows on a strict superstring). -/
theorem spam_C6_hidden_placeholder :
    ((getSpamInfo emptyCfg (some "sent a link")).isHiddenLink = JsBoolish.jsBool true ∧
     (getSpamInfo emptyCfg (some "sent a link")).score = 10 ∧
     (getSpamInfo emptyCfg (some "sent a link")).riskLevel = Risk.medium) ∧
    (∀ (cfg : Config) (t : String),
      (getSpamInfo cfg (some t)).isHiddenLink = JsBoolish.jsBool true ↔
        ¬ (t = "") ∧ lowerList (jsTrim t.data) = "sent a link".data) ∧
    (getSpamInfo emptyCfg (some "I sent a link yesterday")).isHiddenLink =
      JsBoolish.jsBool false := by
  refine ⟨by decide, ?_, by decide⟩
  intro cfg t
  rw [getSpamInfo_isHiddenLink]
  unfold hiddenLinkVal
  dsimp only
  by_cases h : t = ""
  · subst h
    simp
  · rw [if_neg h]
    simp [h, beq_iff_eq]

/-- C1 counterexample: the text "wa.me/12345 youtube.com" matches the
built-in high-risk pattern for WhatsApp shortlinks, yet the classifier
returns tier MEDIUM, not HIGH, because the safe-domain discount for
"youtube.com" pulls the clamped score down to 10. -/
theorem spam_C1_counterexample :
    (HIGH_RISK_URL_PATTERNS.any fun p => p.test "wa.me/12345 youtube.com".data) = true ∧
    (getSpamInfo emptyCfg (some "wa.me/12345 youtube.com")).urlMatch.riskLevel =
      Risk.high ∧
    (getSpamInfo emptyCfg (some "wa.me/12345 youtube.com")).riskLevel = Risk.medium := by
  refine ⟨by decide, by decide, by decide⟩

/-- C1 (amended): for every nonempty text that matches a built-in high-risk
URL pattern or a custom URL substring and does not contain an allowlisted
safe domain, the classifier returns tier HIGH regardless of keyword content
(custom keyword weights being nonnegative, as the options page enforces).
When a safe domain co-occurs, the −10 discount can leave the tier below
HIGH. -/
theorem spam_C1_high_url_forces_high (cfg : Config) (t : String)
    (hw : ∀ p ∈ cfg.customKeywords, (0 : Int) ≤ p.2)
    (hne : ¬ (t = ""))
    (hmatch : (HIGH_RISK_URL_PATTERNS.any fun p => p.test t.data) = true ∨
      (cfg.customUrlPatterns.any fun cp =>
        containsCS (lowerList t.data) (lowerList cp.data)) = true)
    (hnosafe : (SAFE_DOMAINS.any fun d => containsCS (lowerList t.data) d.data) = false) :
    (getSpamInfo cfg (some t)).riskLevel = Risk.high := by
  obtain ⟨hrl, hsu⟩ := checkUrl_high cfg.customUrlPatterns t hne hmatch
  have hkw := calculateSpamScore_nonneg cfg.customKeywords (some t) hw
  rw [riskLevel_eq_riskOf]
  apply riskOf_of_ge_20
  rw [getSpamInfo_score_eq]
  apply jsClamp_ge_20
  rw [hrl, hsu, hnosafe]
  norm_num
  split_ifs <;> omega

/-- Closed instance of the amended C1 theorem: the specification's own
example "hi! wa.me/12345" (no safe domain) classifies HIGH. -/
theorem spam_C1_witness :
    (getSpamInfo emptyCfg (some "hi! wa.me/12345")).riskLevel = Risk.high :=
  spam_C1_high_url_forces_high emptyCfg "hi! wa.me/12345" (by decide) (by decide)
    (Or.inl (by decide)) (by decide)

/-- C2 counterexample: "bit.ly/xyz youtube.com" matches a medium-risk pattern
and no high-risk pattern and contains a safe domain, yet the overall tier
returned by the classifier is SAFE, not LOW: the downgraded URL tier
contributes no score bonus while the safe-domain discount still applies, so
the clamped score is 0. -/
theorem spam_C2_counterexample :
    (MEDIUM_RISK_URL_PATTERNS.any fun p => p.test "bit.ly/xyz youtube.com".data) = true ∧
    (HIGH_RISK_URL_PATTERNS.all fun p => !(p.test "bit.ly/xyz youtube.com".data)) = true ∧
    (SAFE_DOMAINS.any fun d =>
      containsCS (lowerList "bit.ly/xyz youtube.com".data) d.data) = true ∧
    (getSpamInfo emptyCfg (some "bit.ly/xyz youtube.com")).riskLevel = Risk.safe := by
  refine ⟨by decide, by decide, by decide, by decide⟩

/-- C2 (amended): for every nonempty text (with empty custom tables) that
matches a medium-risk pattern, no high-risk pattern, and contains a safe
domain, the URL classifier's tier inside the result is LOW rather than
MEDIUM; the overall tier is not forced to LOW, since a LOW URL tier adds no
score bonus while the safe-domain discount still subtracts 10. -/
theorem spam_C2_medium_safe_downgrade (t : String) (hne : ¬ (t = ""))
    (hmed : (MEDIUM_RISK_URL_PATTERNS.any fun p => p.test t.data) = true)
    (hnothigh : ∀ p ∈ HIGH_RISK_URL_PATTERNS, ¬ (p.test t.data = true))
    (hsafe : (SAFE_DOMAINS.any fun d => containsCS (lowerList t.data) d.data) = true) :
    (getSpamInfo emptyCfg (some t)).urlMatch.riskLevel = Risk.low := by
  rw [getSpamInfo_urlMatch]
  exact checkUrl_medium_downgrade t hne hnothigh hmed hsafe

/-- Closed instance of the amended C2 theorem at the specification's own
example text. -/
theorem spam_C2_witness :
    (getSpamInfo emptyCfg (some "bit.ly/xyz youtube.com")).urlMatch.riskLevel =
      Risk.low :=
  spam_C2_medium_safe_downgrade "bit.ly/xyz youtube.com" (by decide) (by decide)
    (by decide) (by decide)

/-- C7: "this is a 500x opportunity" registers the evidence entry
`regex:multiplier claim` with weight 5 and count 1; in general every dynamic
regex rule is applied globally to the original-case text and, when it
matches, contributes weight × match-count to the evidence map under its
`regex:`-prefixed name (with the first up-to-three matches sampled). -/
theorem spam_C7_regex_rules :
    (lookupKw (getSpamInfo emptyCfg
        (some "this is a 500x opportunity")).keywordMatch.matchedKeywords
        "regex:multiplier claim" = some ⟨5, 1, 5, some ["500x"]⟩) ∧
    (∀ (cfg : Config) (t : String) (re : RE) (w : Int) (name : String),
      (re, w, name) ∈ SPAM_REGEX_PATTERNS → ¬ (t = "") →
      0 < (reMatches re t.data).length →
      lookupKw (getSpamInfo cfg (some t)).keywordMatch.matchedKeywords
          ("regex:" ++ name) =
        some ⟨w, (reMatches re t.data).length, w * ((reMatches re t.data).length : Int),
          some (((reMatches re t.data).take 3).map fun m => String.mk m)⟩) := by
  constructor
  · decide
  · intro cfg t re w name hmem hne hc
    rw [getSpamInfo_keywordMatch]
    unfold calculateSpamScore
    dsimp only
    rw [if_neg hne]
    dsimp only
    apply customFold_lookup_preserved
    apply regexFold_lookup_insert _ _ _ re w name hmem regex_names_nodup _ hc
    apply lookupKw_eq_none
    intro p hp
    rcases kwFold_keys _ _ _ p hp with h | h
    · exact absurd h (List.not_mem_nil p)
    · intro hk
      rcases List.mem_map.mp h with ⟨e, he, hpe⟩
      apply static_keys_no_colon e he
      rw [hpe, hk]
      exact colon_mem_regex_key name

/-- Closed instance of the general part of the C7 theorem: the rule
`dm trigger word` fires once on "dm me 1 word". -/
theorem spam_C7_witness :
    0 < (reMatches reDmTrigger "dm me 1 word".data).length ∧
    lookupKw (getSpamInfo emptyCfg (some "dm me 1 word")).keywordMatch.matchedKeywords
        ("regex:" ++ "dm trigger word") =
      some ⟨4, (reMatches reDmTrigger "dm me 1 word".data).length,
        4 * ((reMatches reDmTrigger "dm me 1 word".data).length : Int),
        some (((reMatches reDmTrigger "dm me 1 word".data).take 3).map
          fun m => String.mk m)⟩ :=
  ⟨by decide,
   spam_C7_regex_rules.2 emptyCfg "dm me 1 word" reDmTrigger 4 "dm trigger word"
     (by unfold SPAM_REGEX_PATTERNS
         exact .tail _ (.tail _ (.tail _ (.tail _ (.tail _ (.tail _ (.tail _ (.head _))))))))
     (by decide) (by decide)⟩

/-- C8: a custom keyword whose phrase coincides with a static keyword is not
deduplicated: both rules fire on any matching text, the evidence map holds
both entries under the distinct keys `k` and `custom:k`, and the score is the
sum of all recorded contributions, so it includes both. -/
theorem spam_C8_duplicate_contribution (cfg : Config) (t k : String) (w w' : Int)
    (hstat : (k, w') ∈ SPAM_KEYWORD_WEIGHTS)
    (hcust : (k, w) ∈ cfg.customKeywords)
    (hnd : (cfg.customKeywords.map Prod.fst).Nodup)
    (hne : ¬ (t = ""))
    (hc : 0 < countKeyword (lowerList t.data) k.data) :
    lookupKw (getSpamInfo cfg (some t)).keywordMatch.matchedKeywords k =
      some ⟨w', countKeyword (lowerList t.data) k.data,
        w' * (countKeyword (lowerList t.data) k.data : Int), none⟩ ∧
    lookupKw (getSpamInfo cfg (some t)).keywordMatch.matchedKeywords ("custom:" ++ k) =
      some ⟨w, countKeyword (lowerList t.data) k.data,
        w * (countKeyword (lowerList t.data) k.data : Int), none⟩ ∧
    (getSpamInfo cfg (some t)).keywordMatch.score =
      kmTotal (getSpamInfo cfg (some t)).keywordMatch.matchedKeywords := by
  refine ⟨?_, ?_, ?_⟩
  · rw [getSpamInfo_keywordMatch]
    unfold calculateSpamScore
    dsimp only
    rw [if_neg hne]
    dsimp only
    apply customFold_lookup_preserved
    apply regexFold_lookup_preserved
    exact kwFold_lookup_insert _ _ _ k w' hstat static_keys_nodup rfl hc
  · rw [getSpamInfo_keywordMatch]
    unfold calculateSpamScore
    dsimp only
    rw [if_neg hne]
    dsimp only
    apply customFold_lookup_insert _ _ _ k w hcust hnd _ hc
    apply lookupKw_eq_none
    intro p hp
    rcases regexFold_keys _ _ _ p hp with h | h
    · rcases kwFold_keys _ _ _ p h with h2 | h2
      · exact absurd h2 (List.not_mem_nil p)
      · intro hk
        rcases List.mem_map.mp h2 with ⟨e, he, hpe⟩
        apply static_keys_no_colon e he
        rw [hpe, hk]
        exact colon_mem_custom_key k
    · rcases h with ⟨r, _, hpr⟩
      rw [hpr]
      exact custom_key_ne_regex_key k r.2.2
  · rw [getSpamInfo_keywordMatch]
    exact calculateSpamScore_score_total cfg.customKeywords (some t)

/-- Closed instance of the C8 theorem: custom keyword "crypto" with weight 7
alongside the static keyword "crypto" with weight 3 on the text "crypto". -/
theorem spam_C8_witness :
    0 < countKeyword (lowerList "crypto".data) "crypto".data ∧
    (lookupKw (getSpamInfo ⟨[], [("crypto", 7)]⟩
        (some "crypto")).keywordMatch.matchedKeywords "crypto" =
      some ⟨3, countKeyword (lowerList "crypto".data) "crypto".data,
        3 * (countKeyword (lowerList "crypto".data) "crypto".data : Int), none⟩ ∧
    lookupKw (getSpamInfo ⟨[], [("crypto", 7)]⟩
        (some "crypto")).keywordMatch.matchedKeywords ("custom:" ++ "crypto") =
      some ⟨7, countKeyword (lowerList "crypto".data) "crypto".data,
        7 * (countKeyword (lowerList "crypto".data) "crypto".data : Int), none⟩ ∧
    (getSpamInfo ⟨[], [("crypto", 7)]⟩ (some "crypto")).keywordMatch.score =
      kmTotal (getSpamInfo ⟨[], [("crypto", 7)]⟩
        (some "crypto")).keywordMatch.matchedKeywords) :=
  ⟨by decide,
   spam_C8_duplicate_contribution ⟨[], [("crypto", 7)]⟩ "crypto" "crypto" 7 3
     (by decide) (by decide) (by decide) (by decide) (by decide)⟩

/-- C5: the model overlay is consulted exactly when it is loaded, the
heuristic tier is not HIGH, the heuristic score is at least 5 and the text is
not an unresolved hidden link; a consulted verdict with confidence above 0.8
overrides to 25/HIGH (spam) or 0/SAFE (not spam) while confidence at most 0.8
leaves the heuristic result unchanged; a thrown error or a null verdict
leaves the heuristic result unchanged and sets the reason codes `ai_error`
and `ai_unavailable` respectively, and a skipped consultation also returns
the unchanged heuristic result. -/
theorem spam_C5_model_overlay (cfg : Config) (text : Option String) (avail : Bool)
    (o : AiOutcome) :
    ((getSpamInfoWithAI cfg text avail o).aiChecked = true ↔
      (avail = true ∧ (getSpamInfo cfg text).riskLevel ≠ Risk.high ∧
       5 ≤ (getSpamInfo cfg text).score ∧
       truthy (getSpamInfo cfg text).isHiddenLink = false)) ∧
    (∀ (s : Bool) (c : ℚ) (cat r : String), o = AiOutcome.verdict s c cat r →
      (getSpamInfoWithAI cfg text avail o).aiChecked = true →
      ((s = true → c > 0.8 →
         (getSpamInfoWithAI cfg text avail o).info.score = 25 ∧
         (getSpamInfoWithAI cfg text avail o).info.riskLevel = Risk.high) ∧
       (s = false → c > 0.8 →
         (getSpamInfoWithAI cfg text avail o).info.score = 0 ∧
         (getSpamInfoWithAI cfg text avail o).info.riskLevel = Risk.safe) ∧
       (c ≤ 0.8 →
         (getSpamInfoWithAI cfg text avail o).info = getSpamInfo cfg text))) ∧
    ((o = AiOutcome.throwErr ∨ o = AiOutcome.nullVerdict ∨ avail = false) →
      (getSpamInfoWithAI cfg text avail o).info = getSpamInfo cfg text) ∧
    ((getSpamInfoWithAI cfg text avail o).aiChecked = true → o = AiOutcome.throwErr →
      (getSpamInfoWithAI cfg text avail o).aiSkipped = some "ai_error") ∧
    ((getSpamInfoWithAI cfg text avail o).aiChecked = true → o = AiOutcome.nullVerdict →
      (getSpamInfoWithAI cfg text avail o).aiSkipped = some "ai_unavailable") ∧
    ((getSpamInfoWithAI cfg text avail o).aiChecked = false →
      (getSpamInfoWithAI cfg text avail o).info = getSpamInfo cfg text) := by
  unfold getSpamInfoWithAI
  cases avail <;> cases o <;> dsimp only <;> split_ifs <;> simp_all <;> try omega
  rename_i hTrue hFalse
  constructor
  · intro c cat r hs hc _ _ hgt
    have h2 := hFalse hs
    rw [hc] at h2
    exact absurd hgt (not_lt.mpr h2)
  · intro c cat r hs hc _ _
    have h2 := hTrue hs
    rw [hc] at h2
    exact h2

/-- Closed instance of the C5 theorem: "crypto trading" (heuristic score 6,
tier LOW) with an available model returning a spam verdict at confidence 0.9
is overridden to score 25 and tier HIGH. -/
theorem spam_C5_witness :
    (getSpamInfoWithAI emptyCfg (some "crypto trading") true
        (AiOutcome.verdict true 0.9 "Crypto" "test")).info.score = 25 ∧
    (getSpamInfoWithAI emptyCfg (some "crypto trading") true
        (AiOutcome.verdict true 0.9 "Crypto" "test")).info.riskLevel = Risk.high :=
  ((spam_C5_model_overlay emptyCfg (some "crypto trading") true
      (AiOutcome.verdict true 0.9 "Crypto" "test")).2.1 true 0.9 "Crypto" "test" rfl
    ((spam_C5_model_overlay emptyCfg (some "crypto trading") true
        (AiOutcome.verdict true 0.9 "Crypto" "test")).1.mpr
      ⟨rfl, by decide, by decide, by decide⟩)).1 rfl (by norm_num)

end XSpam
